import Mathlib

/-!
# IA_Core orchestration engine — verification of the spec's claims

Shallow embedding of the core of `jeturing/IA_Core`:

* `iacore/core/opencore_executor.py` — `OpenCoreExecutor` (command execution,
  batch mode, safety blacklist);
* `iacore/core/llm_client.py` — `LLMClient` (caching, rate limiting, backend
  retry, fallback response);
* `iacore/agent/autonomous.py` — `AutonomousAgent` (task processing, per-step
  fallback strategy, workflow dispatch on file changes).

Conventions of the embedding:

* time is modelled in whole seconds as `Int` (`datetime.now()` values);
* the on-disk cache directory is an association list keyed by the prompt
  itself (the MD5 key of the Python code is injective for our purposes, so
  keying by the prompt is faithful);
* the operating system, the LLM backend and filesystem contents are inputs:
  they are passed as explicit oracle values/functions, so every definition is
  executable;
* Python truthiness on `Optional[str]` (`if cached:`) is modelled explicitly
  by `pyTruthyStr`: both `None` and the empty string are falsy.
-/

namespace IACore

/-!
Python string primitives, implemented over `List Char` so that every
definition evaluates by kernel reduction (Lean's own `String.map`,
`String.trim`, `String.splitOn` and `String.startsWith` do not).
-/

/-- Python's `s.lower()` restricted to the ASCII case mapping, which is all
the code's patterns exercise. -/
def pyLower (s : String) : String := String.mk (s.toList.map Char.toLower)

/-- Does `pat` occur at the start of `s` (character lists)? -/
def startsWithChars : List Char → List Char → Bool
  | _, [] => true
  | [], _ :: _ => false
  | c :: cs, d :: ds => c == d && startsWithChars cs ds

/-- Does `pat` occur somewhere in `s` (character lists)? -/
def occursIn : List Char → List Char → Bool
  | [], pat => pat.isEmpty
  | s@(_ :: rest), pat => startsWithChars s pat || occursIn rest pat

/-- Python's substring test `pat in s`. -/
def containsSub (s pat : String) : Bool := occursIn s.toList pat.toList

/-- Python's `s.startswith(pat)`. -/
def pyStartsWith (s pat : String) : Bool := startsWithChars s.toList pat.toList

/-- The characters Python's `str.strip()` removes. -/
def isPySpace (c : Char) : Bool :=
  c == ' ' || c == '\t' || c == '\n' || c == '\r' || c == '\x0b' || c == '\x0c'

/-- Python's `s.strip()`: drop leading and trailing whitespace. -/
def pyStrip (s : String) : String :=
  String.mk (((s.toList.dropWhile isPySpace).reverse.dropWhile isPySpace).reverse)

/-- Split a character list on `'\n'` (Python's `s.split("\n")`): the list of
(possibly empty) segments between newlines. -/
def splitNl : List Char → List (List Char)
  | [] => [[]]
  | c :: rest =>
      if c == '\n' then [] :: splitNl rest
      else
        match splitNl rest with
        | [] => [[c]]
        | l :: ls => (c :: l) :: ls

/-- Python's `s.split("\n")`. -/
def pySplitLines (s : String) : List String := (splitNl s.toList).map String.mk

namespace Executor

/-- The result dictionary produced by `OpenCoreExecutor.execute`
(`{"success", "output", "error", "exit_code"}`). -/
structure ExecutionResult where
  success : Bool
  output : String
  error : String
  exit_code : Int
  deriving Repr, DecidableEq

/-- What the operating system does with the single process spawned for a
command: it runs to completion with an exit code and captured streams, or
`asyncio.wait_for` times out and the process is killed. -/
inductive SpawnBehaviour where
  | completed (exitCode : Int) (out err : String)
  | timedOut
  deriving Repr, DecidableEq

/-- Shared tail of `_execute_via_opencore` and `_execute_via_subprocess`:
both normalize the spawned process's outcome to the same result shape. -/
def runProcess (timeout : Nat) (b : SpawnBehaviour) : ExecutionResult :=
  match b with
  | .completed exitCode out err =>
      { success := exitCode == 0, output := out, error := err, exit_code := exitCode }
  | .timedOut =>
      { success := false, output := "",
        error := "Command timed out after " ++ toString timeout ++ "s", exit_code := -1 }

/-- `OpenCoreExecutor.execute`.  `avail` is the result of the
`_opencore_available` probe; `b` is what the OS does with the spawned process.
The second component counts the processes spawned *for the command itself*
(the `which opencore` probe process is not counted).  Note the body consults
`avail` only to pick the spawn route — there is no call to `is_safe_command`
anywhere on either route, and each route spawns the command exactly once. -/
def execute (timeout : Nat) (avail : Bool) (b : SpawnBehaviour) (_command : String) :
    ExecutionResult × Nat :=
  if avail then (runProcess timeout b, 1) else (runProcess timeout b, 1)

/-- The fixed danger blacklist of `OpenCoreExecutor.is_safe_command`. -/
def dangerous : List String :=
  ["rm -rf /", "dd if=", "mkfs", ":()\x7b :|:& \x7d;:", "curl | sh", "wget | sh"]

/-- `OpenCoreExecutor.is_safe_command`: lowercase the command and reject it if
any blacklist pattern occurs as a substring. -/
def is_safe_command (command : String) : Bool :=
  let cmdLower := pyLower command
  dangerous.all (fun p => !(containsSub cmdLower p))

/-- `OpenCoreExecutor.execute_batch` from index `i` of the spawn-behaviour
schedule `env` (one OS behaviour per successive `execute` call): run each
command in order, appending its result; when `stop` is set, a failed result
ends the batch. -/
def execute_batch_from (timeout : Nat) (avail : Bool) (env : Nat → SpawnBehaviour)
    (i : Nat) : List String → Bool → List ExecutionResult
  | [], _ => []
  | c :: rest, stop =>
      let r := (execute timeout avail (env i) c).1
      if stop && !r.success then [r]
      else r :: execute_batch_from timeout avail env (i + 1) rest stop

/-- `OpenCoreExecutor.execute_batch(commands, stop_on_error)`. -/
def execute_batch (timeout : Nat) (avail : Bool) (env : Nat → SpawnBehaviour)
    (commands : List String) (stop_on_error : Bool) : List ExecutionResult :=
  execute_batch_from timeout avail env 0 commands stop_on_error

/-- Modelled from the spec's words (for comparison with `execute_batch`):
"the returned list contains exactly the results of the commands up to and
including the first failure, with no entries for the commands after it". -/
def resultsUpToFirstFailure (timeout : Nat) (avail : Bool) (env : Nat → SpawnBehaviour)
    (i : Nat) : List String → List ExecutionResult
  | [] => []
  | c :: rest =>
      let r := (execute timeout avail (env i) c).1
      r :: (if r.success then resultsUpToFirstFailure timeout avail env (i + 1) rest else [])

/-- In-order results of every command, none skipped (the `stop_on_error=false`
behaviour, phrased independently of `execute_batch`). -/
def allResultsInOrder (timeout : Nat) (avail : Bool) (env : Nat → SpawnBehaviour)
    (i : Nat) : List String → List ExecutionResult
  | [] => []
  | c :: rest =>
      (execute timeout avail (env i) c).1 :: allResultsInOrder timeout avail env (i + 1) rest

end Executor

namespace Gateway

/-- Python truthiness of an `Optional[str]`: `None` and `""` are falsy.
This is the test `if cached:` performs in `LLMClient.complete`. -/
def pyTruthyStr : Option String → Bool
  | none => false
  | some s => !(s == "")

/-- Contents of one on-disk cache file, as `_get_cached` sees them.
`corrupt` covers every file whose read raises inside the `try` (invalid JSON,
missing `timestamp`/`response` fields, unparsable timestamp): the bare
`except: pass` turns all of those into a miss. -/
inductive CacheFile where
  | corrupt
  | entry (response : String) (timestamp : Int)
  deriving Repr, DecidableEq

/-- `LLMClient._get_cached(prompt)` over the cache directory `cache`
(newest write first) at time `now`: return the stored response if the file
exists, parses, and is younger than 24 hours (86400 s); otherwise `None`. -/
def get_cached (cache : List (String × CacheFile)) (now : Int) (prompt : String) :
    Option String :=
  match cache.lookup prompt with
  | none => none
  | some .corrupt => none
  | some (.entry resp ts) => if now - ts < 86400 then some resp else none

/-- `LLMClient._cache_response(prompt, response)` at time `now`: (over)write
the prompt's cache file.  Prepending models the overwrite: `lookup` returns
the newest entry. -/
def cache_response (cache : List (String × CacheFile)) (prompt response : String)
    (now : Int) : List (String × CacheFile) :=
  (prompt, .entry response now) :: cache

/-- `LLMClient._check_rate_limit()` called at time `now` with timestamp list
`times` (`self.request_times`).  Returns the new timestamp list and the time
at which the function returns (after the sleep, if any).  Faithful detail from
the source: the timestamp appended is `now` — captured *before* the sleep —
not the time at which the caller resumes. -/
def check_rate_limit (times : List Int) (now : Int) : List Int × Int :=
  let pruned := times.filter (fun t => decide (now - t < 60))
  if 10 ≤ pruned.length then
    let oldest := pruned.headD now
    let wait := oldest + 60 - now
    (pruned ++ [now], if 0 < wait then now + wait else now)
  else
    (pruned ++ [now], now)

/-- Outcome of one call to the OpenAI chat-completion endpoint, as
`_openai_complete`'s `try` sees it. -/
inductive BackendAttempt where
  | ok (text : String)
  | quotaErr
  | authErr
  | exc (msg : String)
  deriving Repr, DecidableEq

/-- How a call to `_openai_complete` ends, seen from `complete`:
it returns a string, an exception escapes it, or (a modelling device) the
supplied attempt schedule was exhausted while the function was still retrying
quota errors — the real code would just keep sleeping and retrying. -/
inductive CallResult where
  | value (s : String)
  | raised
  | exhausted
  deriving Repr, DecidableEq

/-- Aggregate of one `_openai_complete` call: its result, the number of
backend invocations it performed, and the total seconds it spent in the
`asyncio.sleep(60)` back-off before quota-error retries. -/
structure BackendCall where
  result : CallResult
  invocations : Nat
  backoffSeconds : Nat
  deriving Repr, DecidableEq

/-- The retry loop of `_openai_complete` over the attempt schedule: a normal
response is returned; `AuthenticationError` is caught and the function returns
`""`; any other exception propagates; `RateLimitError` sleeps 60 s and calls
`_openai_complete` again — with no retry counter. -/
def openai_complete_go : List BackendAttempt → BackendCall
  | [] => { result := .exhausted, invocations := 0, backoffSeconds := 0 }
  | a :: rest =>
      match a with
      | .ok s => { result := .value s, invocations := 1, backoffSeconds := 0 }
      | .authErr => { result := .value "", invocations := 1, backoffSeconds := 0 }
      | .exc _ => { result := .raised, invocations := 1, backoffSeconds := 0 }
      | .quotaErr =>
          let r := openai_complete_go rest
          { result := r.result, invocations := r.invocations + 1,
            backoffSeconds := r.backoffSeconds + 60 }

/-- `LLMClient._openai_complete`.  `importOk` is whether `import openai`
succeeds; when it does not, the function logs and returns `""` without any
backend invocation. -/
def openai_complete (importOk : Bool) (attempts : List BackendAttempt) : BackendCall :=
  if !importOk then { result := .value "", invocations := 0, backoffSeconds := 0 }
  else openai_complete_go attempts

/-- `LLMClient._fallback_response(prompt)`. -/
def fallback_response (prompt : String) : String :=
  if containsSub (pyLower prompt) "commands" then
    "# Unable to generate commands at this time\necho 'LLM unavailable'"
  else
    "Unable to process request. LLM service unavailable."

/-- The mutable state of an `LLMClient`: the cache directory and
`self.request_times`. -/
structure GatewayState where
  cache : List (String × CacheFile)
  request_times : List Int
  deriving Repr, DecidableEq

/-- Everything observable about one `LLMClient.complete` call. -/
structure CompleteTrace where
  result : CallResult
  state : GatewayState
  backendCalls : Nat
  rateRecorded : Bool
  finishTime : Int
  deriving Repr, DecidableEq

/-- `LLMClient.complete(prompt, ..., use_cache)` starting from state `st` at
time `now`, with provider `provider` (the constructor default is `"openai"`),
the import status `importOk` and backend attempt schedule `attempts`.

Control flow from the source: a truthy fresh cache entry is returned at once
(no rate-limit consumption); otherwise `_check_rate_limit` runs, then the
`try` block calls the provider (an unsupported provider raises `ValueError`
into the same `except Exception` handler), caches a returned response when
`use_cache` is set, and the handler converts any escaped exception into
`_fallback_response(prompt)`. -/
def complete (provider : String) (st : GatewayState) (now : Int) (prompt : String)
    (use_cache : Bool) (importOk : Bool) (attempts : List BackendAttempt) :
    CompleteTrace :=
  if use_cache && pyTruthyStr (get_cached st.cache now prompt) then
    { result := .value ((get_cached st.cache now prompt).getD ""),
      state := st, backendCalls := 0, rateRecorded := false, finishTime := now }
  else
    let pr := check_rate_limit st.request_times now
    if provider == "openai" then
      let bc := openai_complete importOk attempts
      let tEnd := pr.2 + (bc.backoffSeconds : Int)
      match bc.result with
      | .value s =>
          { result := .value s,
            state := { cache := if use_cache then cache_response st.cache prompt s tEnd
                                else st.cache,
                       request_times := pr.1 },
            backendCalls := bc.invocations, rateRecorded := true, finishTime := tEnd }
      | .raised =>
          { result := .value (fallback_response prompt),
            state := { cache := st.cache, request_times := pr.1 },
            backendCalls := bc.invocations, rateRecorded := true, finishTime := tEnd }
      | .exhausted =>
          { result := .exhausted,
            state := { cache := st.cache, request_times := pr.1 },
            backendCalls := bc.invocations, rateRecorded := true, finishTime := tEnd }
    else
      { result := .value (fallback_response prompt),
        state := { cache := st.cache, request_times := pr.1 },
        backendCalls := 0, rateRecorded := true, finishTime := pr.2 }

/-- Sequential driver for claim C5: run one rate-limited gateway call per
arrival time (all cache misses), returning the list of backend invocation
times.  A call cannot start before the previous one returned
(`now := max arrival prevFinish`); the backend is invoked as soon as
`_check_rate_limit` returns, i.e. at its wake time. -/
def rateLimitRun (times : List Int) (prevFinish : Int) : List Int → List Int
  | [] => []
  | a :: rest =>
      let now := max a prevFinish
      let pr := check_rate_limit times now
      pr.2 :: rateLimitRun pr.1 pr.2 rest

end Gateway

namespace Agent

open Executor

/-- One record of the persisted task list (`.iacore/runtime/tasks.json`);
only the fields the engine reads. -/
structure TaskRec where
  description : String
  status : String
  deriving Repr, DecidableEq

/-- `AutonomousAgent._build_execution_prompt(task)`; `context` is the JSON
dump of the cached analysis and `projectType` the cached project type. -/
def build_execution_prompt (context projectType : String) (task : TaskRec) : String :=
  "You are an AI agent managing a " ++ projectType ++ " project.\n\n" ++
  "PROJECT CONTEXT:\n" ++ context ++ "\n\nTASK:\n" ++ task.description ++
  "\n\nGenerate a list of shell commands to complete this task.\n" ++
  "Return ONLY the commands, one per line, with no explanation.\n" ++
  "Commands will be executed silently via OpenCore.\n\nCOMMANDS:"

/-- `AutonomousAgent._parse_commands(llm_response)`: strip the response, split
on newlines, drop blank lines, `#` comment lines and ``` fence lines, and keep
every other stripped line as one command. -/
def parse_commands (llm_response : String) : List String :=
  (pySplitLines (pyStrip llm_response)).filterMap (fun line =>
    let l := pyStrip line
    if l == "" then none
    else if pyStartsWith l "#" then none
    else if pyStartsWith l "```" then none
    else some l)

/-- The prompt `_get_fallback_strategy` sends to the gateway: it embeds the
failed command and its error text. -/
def fallback_prompt (failed_cmd err : String) : String :=
  "The command failed:\nCommand: " ++ failed_cmd ++ "\nError: " ++ err ++
  "\n\nProvide ONE alternative command to achieve the same goal, or return \"SKIP\" if not possible.\nALTERNATIVE:"

/-- `AutonomousAgent._get_fallback_strategy(failed_cmd, error)` with the LLM
gateway abstracted as the oracle `llm` (each `complete` call returns a
string): strip the reply and return `None` exactly when it is the literal
sentinel `"SKIP"`. -/
def get_fallback_strategy (llm : String → String) (failed_cmd err : String) :
    Option String :=
  let fallback := pyStrip (llm (fallback_prompt failed_cmd err))
  if fallback == "SKIP" then none else some fallback

/-- What one iteration of `_execute_task`'s command loop did for one step. -/
structure StepTrace where
  executed : List String
  fallbackRequests : Nat
  deriving Repr, DecidableEq

/-- One step of `_execute_task`'s loop.  `exec1` is the executor oracle
(result of `self.executor.execute` per command).  On success nothing else
happens; on failure exactly one fallback request goes to the gateway, and the
reply is executed once — but only if it is truthy (`if fallback:`): `None`
(the `"SKIP"` sentinel) and the empty string both skip it. -/
def execute_step (llm : String → String) (exec1 : String → ExecutionResult)
    (cmd : String) : StepTrace :=
  let r := exec1 cmd
  if r.success then { executed := [cmd], fallbackRequests := 0 }
  else
    match get_fallback_strategy llm cmd r.error with
    | none => { executed := [cmd], fallbackRequests := 1 }
    | some fb =>
        if fb == "" then { executed := [cmd], fallbackRequests := 1 }
        else { executed := [cmd, fb], fallbackRequests := 1 }

/-- `AutonomousAgent._execute_task(task)`: ask the gateway for a plan, parse
it, and run every parsed command through the step loop — the loop has no
`break`, so every step is attempted.  Returns one `StepTrace` per plan step.
Note the function neither mutates `task["status"]` nor writes the task file. -/
def execute_task (llm : String → String) (exec1 : String → ExecutionResult)
    (context projectType : String) (task : TaskRec) : List StepTrace :=
  (parse_commands (llm (build_execution_prompt context projectType task))).map
    (execute_step llm exec1)

/-- All commands actually executed for a task, in order. -/
def taskExecuted (llm : String → String) (exec1 : String → ExecutionResult)
    (context projectType : String) (task : TaskRec) : List String :=
  (execute_task llm exec1 context projectType task).flatMap StepTrace.executed

/-- `AutonomousAgent._process_pending_tasks()`: read the task list, execute
each task whose status is `"pending"`, and — as in the source — write nothing
back: the returned persisted list is the input list unchanged.  The second
component is every command executed during the pass, in order. -/
def process_pending_tasks (llm : String → String) (exec1 : String → ExecutionResult)
    (context projectType : String) (tasks : List TaskRec) :
    List TaskRec × List String :=
  (tasks,
   (tasks.filter (fun t => t.status == "pending")).flatMap
     (taskExecuted llm exec1 context projectType))

/-- Outcome of `AutonomousAgent._execute_workflow_action(action, data)` for
one action name. -/
inductive WorkflowEvent where
  | ran (action : String)
  | unknownSkipped (action : String)
  deriving Repr, DecidableEq

/-- The keys of the `actions_map` dictionary in
`_execute_workflow_action`. -/
def known_actions : List String :=
  ["detect_impact", "analyze_context", "analyze_commit", "suggest_improvements"]

/-- `AutonomousAgent._execute_workflow_action`: a known name runs its handler;
an unknown name is logged (`"Unknown action: ..."`) and skipped. -/
def execute_workflow_action (action : String) : WorkflowEvent :=
  if known_actions.contains action then .ran action else .unknownSkipped action

/-- `AutonomousAgent.on_file_change(path, event_type)`: drop ignored paths;
classify the change's impact (`classify` abstracts
`analyzer.analyze_file_change(...).get("severity")`); when the severity is
`"high"`, dispatch every action of the configured `on_file_change` workflow
list in order.  Returns the dispatched workflow events. -/
def on_file_change (shouldIgnore : String → Bool) (classify : String → String)
    (workflow : List String) (path : String) : List WorkflowEvent :=
  if shouldIgnore path then []
  else if classify path == "high" then workflow.map execute_workflow_action
  else []

end Agent

/-! ## Theorems -/

namespace Executor

/-- Auxiliary for claim C8: with `stop_on_error = true`, the batch runner
produces exactly the results up to and including the first failure. -/
theorem execute_batch_from_stop :
    ∀ (cmds : List String) (t : Nat) (avail : Bool) (env : Nat → SpawnBehaviour) (i : Nat),
      execute_batch_from t avail env i cmds true =
        resultsUpToFirstFailure t avail env i cmds
  | [], _, _, _, _ => rfl
  | c :: rest, t, avail, env, i => by
      simp only [execute_batch_from, resultsUpToFirstFailure]
      cases h : (execute t avail (env i) c).1.success with
      | true => simp [h, execute_batch_from_stop rest]
      | false => simp [h]

/-- Auxiliary for claim C8: with `stop_on_error = false`, the batch runner
produces every command's result in order. -/
theorem execute_batch_from_all :
    ∀ (cmds : List String) (t : Nat) (avail : Bool) (env : Nat → SpawnBehaviour) (i : Nat),
      execute_batch_from t avail env i cmds false =
        allResultsInOrder t avail env i cmds
  | [], _, _, _, _ => rfl
  | c :: rest, t, avail, env, i => by
      simp only [execute_batch_from, allResultsInOrder, Bool.false_and,
        Bool.false_eq_true, if_false, execute_batch_from_all rest]

/-- C8: `execute_batch` runs the commands strictly in list order; with
`stop_on_error = true` the returned list is exactly the results of the
commands up to and including the first failure (commands after it are neither
attempted nor reported), and with `stop_on_error = false` every command's
result is reported in order. -/
theorem C8_execute_batch_order_and_stop (timeout : Nat) (avail : Bool)
    (env : Nat → SpawnBehaviour) (commands : List String) :
    execute_batch timeout avail env commands true =
      resultsUpToFirstFailure timeout avail env 0 commands ∧
    execute_batch timeout avail env commands false =
      allResultsInOrder timeout avail env 0 commands :=
  ⟨execute_batch_from_stop commands timeout avail env 0,
   execute_batch_from_all commands timeout avail env 0⟩

/-- C1: the danger blacklist classifies `rm -rf /` as unsafe, yet `execute`
never consults `is_safe_command`: on a host where the process completes with
exit code 0, `execute` spawns the command (spawn count 1, not 0) and even
reports `success = true` — on both the OpenCore and the subprocess route.
This refutes "a blocked command returns a failure result without spawning
anything" on the code as written. -/
theorem C1_blacklisted_command_still_spawned :
    is_safe_command "rm -rf /" = false ∧
    execute 300 true (.completed 0 "" "") "rm -rf /" =
      ({ success := true, output := "", error := "", exit_code := 0 }, 1) ∧
    execute 300 false (.completed 0 "" "") "rm -rf /" =
      ({ success := true, output := "", error := "", exit_code := 0 }, 1) := by
  refine ⟨by decide, rfl, rfl⟩

end Executor

namespace Gateway

/-- C2 (counterexample to the claim as stated): an authentication failure is a
backend failure, but `complete` returns the empty string that
`_openai_complete` produced for it — not the deterministic fallback string
`_fallback_response(prompt)`. -/
theorem C2_counterexample_auth_failure_returns_empty :
    (complete "openai" ⟨[], []⟩ 0 "p" false true [.authErr]).result =
      CallResult.value "" ∧
    fallback_response "p" ≠ "" := by decide

/-- C2 (amended): `complete` never lets an exception escape to its caller,
and whenever the backend call raises an exception that reaches `complete`'s
handler (any exception other than the quota and authentication errors
`_openai_complete` handles itself), the returned string is the deterministic
fallback `_fallback_response(prompt)`.  (An authentication failure or a
missing `openai` package instead yields the empty string, and persistent
quota errors keep the call retrying inside `_openai_complete`.) -/
theorem C2_never_raises_and_fallback_on_escaped_exception :
    (∀ (provider : String) (st : GatewayState) (now : Int) (prompt : String)
        (u i : Bool) (a : List BackendAttempt),
        (complete provider st now prompt u i a).result ≠ CallResult.raised) ∧
    (∀ (st : GatewayState) (now : Int) (prompt : String) (u importOk : Bool)
        (attempts : List BackendAttempt),
        (u && pyTruthyStr (get_cached st.cache now prompt)) = false →
        (openai_complete importOk attempts).result = CallResult.raised →
        (complete "openai" st now prompt u importOk attempts).result =
          CallResult.value (fallback_response prompt)) := by
  constructor
  · intro provider st now prompt u i a
    unfold complete
    split
    · simp
    · split
      · cases h : (openai_complete i a).result <;> simp [h]
      · simp
  · intro st now prompt u importOk attempts hmiss hraised
    simp [complete, hmiss, hraised]

/-- Witness for C2 (amended): a transport exception on a cache miss is
absorbed into the fallback string. -/
theorem C2_never_raises_and_fallback_witness :
    (complete "openai" ⟨[], []⟩ 0 "p" false true [.exc "boom"]).result =
      CallResult.value (fallback_response "p") :=
  C2_never_raises_and_fallback_on_escaped_exception.2 ⟨[], []⟩ 0 "p" false true
    [.exc "boom"] (by decide) (by decide)

/-- C4 (counterexample to the claim as stated): a first call whose backend
reports an authentication failure caches the empty string; on the second call
a cache entry younger than 24 hours exists (`get_cached` returns it), yet
`if cached:` treats the empty string as a miss, so the backend is invoked and
a rate-window timestamp is recorded. -/
theorem C4_counterexample_empty_cached_response_misses :
    get_cached (complete "openai" ⟨[], []⟩ 0 "p" true true [.authErr]).state.cache
      1 "p" = some "" ∧
    (complete "openai" (complete "openai" ⟨[], []⟩ 0 "p" true true [.authErr]).state
        1 "p" true true [.ok "x"]).backendCalls = 1 ∧
    (complete "openai" (complete "openai" ⟨[], []⟩ 0 "p" true true [.authErr]).state
        1 "p" true true [.ok "x"]).rateRecorded = true := by decide

/-- C4 (amended): when a cache entry younger than 24 hours with a *non-empty*
response exists for the prompt (so `_get_cached`'s result is truthy), a
`use_cache=true` call performs zero backend invocations, records no
rate-window timestamp, returns exactly the cached response, and leaves the
gateway state untouched. -/
theorem C4_fresh_nonempty_cache_hit_no_backend (st : GatewayState) (now : Int)
    (prompt : String) (importOk : Bool) (attempts : List BackendAttempt)
    (h : pyTruthyStr (get_cached st.cache now prompt) = true) :
    (complete "openai" st now prompt true importOk attempts).backendCalls = 0 ∧
    (complete "openai" st now prompt true importOk attempts).rateRecorded = false ∧
    (complete "openai" st now prompt true importOk attempts).result =
      CallResult.value ((get_cached st.cache now prompt).getD "") ∧
    (complete "openai" st now prompt true importOk attempts).state = st := by
  simp [complete, h]

/-- Witness for C4 (amended): a one-second-old entry holding `"pong"` is
served without touching the backend or the rate window. -/
theorem C4_fresh_nonempty_cache_hit_witness :
    (complete "openai" ⟨[("p", CacheFile.entry "pong" 0)], []⟩ 1 "p" true true
        [.ok "other"]).backendCalls = 0 ∧
    (complete "openai" ⟨[("p", CacheFile.entry "pong" 0)], []⟩ 1 "p" true true
        [.ok "other"]).rateRecorded = false ∧
    (complete "openai" ⟨[("p", CacheFile.entry "pong" 0)], []⟩ 1 "p" true true
        [.ok "other"]).result = CallResult.value "pong" := by
  have h := C4_fresh_nonempty_cache_hit_no_backend
    ⟨[("p", CacheFile.entry "pong" 0)], []⟩ 1 "p" true [.ok "other"] (by decide)
  exact ⟨h.1, h.2.1, by rw [h.2.2.1]; decide⟩

/-- C5: the rolling-window bound fails.  With 21 calls all arriving at time 0
(a cache-miss burst), calls 1–10 invoke the backend at time 0; call 11 blocks
until `oldest + 60 = 60` but then records its *pre-sleep* arrival time 0, so
at time 60 every recorded timestamp immediately ages out of the window and
calls 12–21 all invoke the backend at time 60 as well: the window `(0, 60]`
contains 11 backend invocations, exceeding the quota of 10. -/
theorem C5_eleven_invocations_in_one_window :
    rateLimitRun [] 0 (List.replicate 21 0) =
      [0, 0, 0, 0, 0, 0, 0, 0, 0, 0, 60, 60, 60, 60, 60, 60, 60, 60, 60, 60, 60] ∧
    10 < (rateLimitRun [] 0 (List.replicate 21 0)).countP
        (fun t => decide (0 < t) && decide (t ≤ 60)) := by decide

/-- C6 (counterexample to the claim as stated): two consecutive quota errors
followed by a success cause three backend invocations inside a single
`complete` call — more than the claimed one initial attempt plus at most one
retry. -/
theorem C6_counterexample_three_backend_invocations :
    (complete "openai" ⟨[], []⟩ 0 "p" false true
        [.quotaErr, .quotaErr, .ok "hi"]).backendCalls = 3 ∧ ¬(3 ≤ 2) := by decide

/-- Auxiliary for claim C6: the retry loop of `_openai_complete` consumes
every consecutive quota error, sleeping 60 s before each retry. -/
theorem openai_complete_go_replicate_quota (n : Nat) (s : String) :
    openai_complete_go (List.replicate n .quotaErr ++ [.ok s]) =
      { result := .value s, invocations := n + 1, backoffSeconds := 60 * n } := by
  induction n with
  | zero => rfl
  | succ k ih =>
      simp [List.replicate_succ, openai_complete_go, ih]
      ring

/-- C6 (amended): on backend quota errors the gateway waits a fixed 60 s
back-off and retries with *no* bound on the number of retries: `n`
consecutive quota errors followed by a success cause `n + 1` backend
invocations (and `60 · n` seconds of back-off) within one `complete` call. -/
theorem C6_quota_retry_unbounded (n : Nat) (s : String) (st : GatewayState)
    (now : Int) (prompt : String) :
    openai_complete true (List.replicate n .quotaErr ++ [.ok s]) =
      { result := .value s, invocations := n + 1, backoffSeconds := 60 * n } ∧
    (complete "openai" st now prompt false true
        (List.replicate n .quotaErr ++ [.ok s])).backendCalls = n + 1 := by
  have h := openai_complete_go_replicate_quota n s
  refine ⟨by simpa [openai_complete] using h, ?_⟩
  simp [complete, openai_complete, h]

/-- Auxiliary for claim C10: removing every entry of a key from an
association list makes its lookup miss. -/
theorem lookup_filter_ne (cache : List (String × CacheFile)) (prompt : String) :
    (cache.filter (fun kv => !(kv.1 == prompt))).lookup prompt = none := by
  induction cache with
  | nil => rfl
  | cons kv rest ih =>
      by_cases h : kv.1 = prompt
      · simp [List.filter_cons, h, ih]
      · have hb : (prompt == kv.1) = false := beq_eq_false_iff_ne.mpr (Ne.symm h)
        have hb' : (kv.1 == prompt) = false := beq_eq_false_iff_ne.mpr h
        simp [List.filter_cons, List.lookup, hb, hb', ih]

/-- C10: when the prompt's on-disk cache file exists but is corrupt (invalid
JSON, missing fields, or an unparsable timestamp — all absorbed by the bare
`except`), `_get_cached` returns a miss rather than raising, and `complete`
behaves exactly as it does when no entry exists at all: same result, same
backend invocations, same rate-window consumption. -/
theorem C10_corrupt_cache_entry_behaves_as_miss (st : GatewayState) (now : Int)
    (prompt : String) (use_cache importOk : Bool) (attempts : List BackendAttempt)
    (h : st.cache.lookup prompt = some CacheFile.corrupt) :
    get_cached st.cache now prompt = none ∧
    (complete "openai" st now prompt use_cache importOk attempts).result =
      (complete "openai" ⟨st.cache.filter (fun kv => !(kv.1 == prompt)), st.request_times⟩
        now prompt use_cache importOk attempts).result ∧
    (complete "openai" st now prompt use_cache importOk attempts).backendCalls =
      (complete "openai" ⟨st.cache.filter (fun kv => !(kv.1 == prompt)), st.request_times⟩
        now prompt use_cache importOk attempts).backendCalls ∧
    (complete "openai" st now prompt use_cache importOk attempts).rateRecorded =
      (complete "openai" ⟨st.cache.filter (fun kv => !(kv.1 == prompt)), st.request_times⟩
        now prompt use_cache importOk attempts).rateRecorded ∧
    (complete "openai" st now prompt use_cache importOk attempts).state.request_times =
      (complete "openai" ⟨st.cache.filter (fun kv => !(kv.1 == prompt)), st.request_times⟩
        now prompt use_cache importOk attempts).state.request_times := by
  have hg : get_cached st.cache now prompt = none := by
    simp [get_cached, h]
  have hg' : get_cached (st.cache.filter (fun kv => !(kv.1 == prompt))) now prompt = none := by
    simp [get_cached, lookup_filter_ne]
  refine ⟨hg, ?_⟩
  cases hr : (openai_complete importOk attempts).result <;>
    simp [complete, hg, hg', hr, pyTruthyStr]

/-- Witness for C10: a corrupt cache file for `"p"` is a miss, and the call
proceeds to the rate limiter and backend. -/
theorem C10_corrupt_cache_entry_witness :
    get_cached [("p", CacheFile.corrupt)] 0 "p" = none ∧
    (complete "openai" ⟨[("p", CacheFile.corrupt)], []⟩ 0 "p" true true
        [.ok "x"]).backendCalls =
      (complete "openai" ⟨[], []⟩ 0 "p" true true [.ok "x"]).backendCalls := by
  have h := C10_corrupt_cache_entry_behaves_as_miss
    ⟨[("p", CacheFile.corrupt)], []⟩ 0 "p" true true [.ok "x"] (by decide)
  exact ⟨h.1, h.2.2.1⟩

end Gateway

namespace Agent

open Executor

/-- Stub gateway used by the C3 evaluation: every plan request yields the
single command `ls -la`. -/
def llmPlanLs : String → String := fun _ => "ls -la"

/-- Stub executor used by the C3 evaluation: every command succeeds. -/
def execAlwaysOk : String → ExecutionResult :=
  fun _ => { success := true, output := "", error := "", exit_code := 0 }

/-- C3: the task lifecycle state machine does not exist in the code.
`_execute_task` runs the plan but never assigns `task["status"]`, and
`_process_pending_tasks` never writes the task file, so even in the spec's
own end-to-end scenario (task `"list files"`, stubbed gateway returning
`"ls -la"`, stubbed executor succeeding) the persisted status is still
`"pending"` after the pass — not `"running"` and never `"success"` — and the
next polling pass executes the very same task again. -/
theorem C3_status_never_transitions_and_task_reexecuted :
    (process_pending_tasks llmPlanLs execAlwaysOk "ctx" "python"
        [⟨"list files", "pending"⟩]).1 = [⟨"list files", "pending"⟩] ∧
    (process_pending_tasks llmPlanLs execAlwaysOk "ctx" "python"
        [⟨"list files", "pending"⟩]).2 = ["ls -la"] ∧
    (process_pending_tasks llmPlanLs execAlwaysOk "ctx" "python"
        (process_pending_tasks llmPlanLs execAlwaysOk "ctx" "python"
          [⟨"list files", "pending"⟩]).1).2 = ["ls -la"] := by decide

/-- Stub executor used by the C7 evidence: the command `x` fails with error
text `boom`; everything else succeeds. -/
def execFailsOnX : String → ExecutionResult :=
  fun c => if c == "x" then { success := false, output := "", error := "boom", exit_code := 1 }
           else { success := true, output := "", error := "", exit_code := 0 }

/-- Stub gateway used by the C7 counterexample: every reply is empty. -/
def llmRepliesEmpty : String → String := fun _ => ""

/-- C7 (counterexample to the claim as stated): when the failed step's
fallback request yields the empty reply — which is not the literal sentinel
`"SKIP"` — the fallback is nevertheless not executed: `if fallback:` treats
the empty string as falsy, so only the failed command itself ran. -/
theorem C7_counterexample_empty_reply_abandons_step :
    pyStrip (llmRepliesEmpty (fallback_prompt "x" "boom")) ≠ "SKIP" ∧
    execute_step llmRepliesEmpty execFailsOnX "x" =
      { executed := ["x"], fallbackRequests := 1 } := by decide

/-- C7 (amended): for every failed plan step exactly one fallback command is
requested from the gateway; if the stripped reply is the sentinel `"SKIP"`
*or the empty string*, the step is abandoned and no fallback is executed;
otherwise the stripped reply is executed exactly once with no further
chaining.  A successful step requests nothing.  And independently of any
step's outcome, `_execute_task` attempts every parsed plan step in order
(the `i`-th step trace is exactly the trace of the `i`-th parsed command). -/
theorem C7_one_fallback_skip_or_empty_and_all_steps_attempted :
    (∀ (llm : String → String) (exec1 : String → ExecutionResult) (cmd : String),
        (exec1 cmd).success = false →
        (execute_step llm exec1 cmd).fallbackRequests = 1 ∧
        ((pyStrip (llm (fallback_prompt cmd (exec1 cmd).error)) = "SKIP" ∨
          pyStrip (llm (fallback_prompt cmd (exec1 cmd).error)) = "") →
            (execute_step llm exec1 cmd).executed = [cmd]) ∧
        (pyStrip (llm (fallback_prompt cmd (exec1 cmd).error)) ≠ "SKIP" →
         pyStrip (llm (fallback_prompt cmd (exec1 cmd).error)) ≠ "" →
            (execute_step llm exec1 cmd).executed =
              [cmd, pyStrip (llm (fallback_prompt cmd (exec1 cmd).error))])) ∧
    (∀ (llm : String → String) (exec1 : String → ExecutionResult) (cmd : String),
        (exec1 cmd).success = true →
        execute_step llm exec1 cmd = ⟨[cmd], 0⟩) ∧
    (∀ (llm : String → String) (exec1 : String → ExecutionResult)
        (ctx pt : String) (task : TaskRec) (i : Nat),
        (execute_task llm exec1 ctx pt task)[i]? =
          ((parse_commands (llm (build_execution_prompt ctx pt task)))[i]?).map
            (execute_step llm exec1)) := by
  refine ⟨?_, ?_, ?_⟩
  · intro llm exec1 cmd hfail
    by_cases hskip : pyStrip (llm (fallback_prompt cmd (exec1 cmd).error)) = "SKIP"
    · simp [execute_step, get_fallback_strategy, hfail, hskip]
    · by_cases hempty : pyStrip (llm (fallback_prompt cmd (exec1 cmd).error)) = ""
      · simp [execute_step, get_fallback_strategy, hfail, hskip, hempty]
      · simp [execute_step, get_fallback_strategy, hfail, hskip, hempty]
  · intro llm exec1 cmd hok
    simp [execute_step, hok]
  · intro llm exec1 ctx pt task i
    simp [execute_task, List.getElem?_map]

/-- Stub gateway used by the C7 witness: the fallback request for the failed
command `x` gets the reply `mv y z`; other prompts get `echo hi`. -/
def llmSuggestsMove : String → String :=
  fun p => if p == fallback_prompt "x" "boom" then "mv y z" else "echo hi"

set_option maxRecDepth 4096 in
/-- Witness for C7 (amended): for the failed command `x` with reply
`mv y z`, exactly one fallback request is made and the fallback is executed
exactly once. -/
theorem C7_one_fallback_witness :
    (execute_step llmSuggestsMove execFailsOnX "x").fallbackRequests = 1 ∧
    (execute_step llmSuggestsMove execFailsOnX "x").executed = ["x", "mv y z"] := by
  have h := C7_one_fallback_skip_or_empty_and_all_steps_attempted.1
    llmSuggestsMove execFailsOnX "x" (by decide)
  refine ⟨h.1, ?_⟩
  rw [h.2.2 (by decide) (by decide)]
  decide

/-- C9: for a non-ignored file event classified with severity `"high"`,
every action name of the configured `on_file_change` list is dispatched in
list order (the `i`-th dispatched event corresponds to the `i`-th configured
name, and the count matches), and an action name outside the handler map
becomes a logged skip rather than aborting the remaining actions. -/
theorem C9_high_severity_dispatches_every_action (shouldIgnore : String → Bool)
    (classify : String → String) (workflow : List String) (path : String)
    (h1 : shouldIgnore path = false) (h2 : classify path = "high") :
    (on_file_change shouldIgnore classify workflow path).length = workflow.length ∧
    (∀ i : Nat, (on_file_change shouldIgnore classify workflow path)[i]? =
        (workflow[i]?).map execute_workflow_action) ∧
    (∀ a : String, known_actions.contains a = false →
        execute_workflow_action a = WorkflowEvent.unknownSkipped a) := by
  refine ⟨?_, ?_, ?_⟩
  · simp [on_file_change, h1, h2]
  · intro i
    simp [on_file_change, h1, h2, List.getElem?_map]
  · intro a ha
    have ha' : a ∉ known_actions := by simpa using ha
    simp [execute_workflow_action, ha']

/-- Witness for C9: a three-action workflow whose middle name is unknown
dispatches all three events in order, the middle one as a logged skip. -/
theorem C9_high_severity_dispatch_witness :
    (on_file_change (fun _ => false) (fun _ => "high")
        ["detect_impact", "frobnicate", "analyze_context"] "a.py").length = 3 ∧
    (on_file_change (fun _ => false) (fun _ => "high")
        ["detect_impact", "frobnicate", "analyze_context"] "a.py")[1]? =
      some (WorkflowEvent.unknownSkipped "frobnicate") := by
  have h := C9_high_severity_dispatches_every_action (fun _ => false) (fun _ => "high")
    ["detect_impact", "frobnicate", "analyze_context"] "a.py" rfl rfl
  refine ⟨h.1.trans (by decide), ?_⟩
  rw [h.2.1 1]
  decide

end Agent

end IACore
